import Mathlib

/-!
Shallow embedding of the brightthread order-modification dialogue engine:
the agent in src/backend/src/agents/cx_order_support_agent.py, its Pydantic
models in src/backend/src/agents/models/cx_order_support.py, the tool layer
in src/backend/src/agents/tools/order_tools.py and policy_tool.py, and the
mutation paths of src/backend/src/services/order_service.py.

Modelling conventions:
- Python ints are Lean Int, record ids (UUIDs) are Nat, money (float/Decimal)
  is Rat.
- The relational store is a Db value of lists; SQLAlchemy update/flush is a
  map-replace by id, delete is a filter, and query .one() is List.find?.
- Python exceptions are Except errors; an .error result carries no Db, which
  models that the raising paths abort before any later mutation.
- The LLM (the understanding oracle) and the external JSON parsing layers
  (json.loads plus Pydantic field coercion) are parameters bundled in
  OracleEnv; the Pydantic model_validator of PendingModification is embedded
  concretely since it is repository code.
-/

namespace BrightThread

/-! Enums from src/backend/src/agents/models/cx_order_support.py and
    src/backend/src/agents/tools/policy_tool.py. -/

inductive Intent where
  | order_inquiry
  | order_change
  | confirmation
  | policy_confirmation
  | off_topic
  | unclear
  deriving DecidableEq, Repr

/-- Mirror of the StrEnum membership test `content in (i.value for i in Intent)`
together with the constructor `Intent(content)`. -/
def intentOfValue (s : String) : Option Intent :=
  if s = "ORDER_INQUIRY" then some .order_inquiry
  else if s = "ORDER_CHANGE" then some .order_change
  else if s = "CONFIRMATION" then some .confirmation
  else if s = "POLICY_CONFIRMATION" then some .policy_confirmation
  else if s = "OFF_TOPIC" then some .off_topic
  else if s = "UNCLEAR" then some .unclear
  else none

inductive ModificationAction where
  | modify
  | remove_item
  | unsupported
  deriving DecidableEq, Repr

inductive PendingModificationStatus where
  | pending
  | executed
  | cancelled
  deriving DecidableEq, Repr

inductive ConfirmationInterpretation where
  | confirmed
  | rejected
  | correction
  | unclear
  deriving DecidableEq, Repr

inductive PolicyConfirmationStatus where
  | pending
  | accepted
  | rejected
  deriving DecidableEq, Repr

inductive ChangeType where
  | quantity_increase
  | quantity_decrease
  | size_change
  | color_change
  | artwork_change
  | address_change
  | cancellation
  | remove_item
  deriving DecidableEq, Repr

inductive PolicyDecision where
  | allowed
  | conditional
  | denied
  deriving DecidableEq, Repr

/-- Structured pending modification, from agents/models/cx_order_support.py
(class PendingModification). -/
structure PendingModification where
  action : ModificationAction
  line_item_id : Option String := none
  product_name : String
  size_name : String
  color_name : String
  current_quantity : Option Int := none
  new_quantity : Option Int := none
  new_size : Option String := none
  new_color : Option String := none
  reason : Option String := none
  deriving DecidableEq, Repr

/-- Embedding of the Pydantic model_validator `_validate_action_requirements`
(cx_order_support.py lines 62-92).  Python truthiness on the name fields means
the empty string fails the `if not self.product_name` style checks. -/
def validate_action_requirements (p : PendingModification) : Bool :=
  if p.action = .unsupported then true
  else if p.product_name = "" then false
  else if p.size_name = "" then false
  else if p.color_name = "" then false
  else if p.action = .modify then
    p.new_quantity.isSome || p.new_size.isSome || p.new_color.isSome
  else
    p.new_quantity.isNone && p.new_size.isNone && p.new_color.isNone

/-- PendingModification.model_validate: validation-on-build.  Returns the value
when the model_validator passes, and fails (Pydantic raises ValidationError)
otherwise. -/
def model_validate_pending (p : PendingModification) : Option PendingModification :=
  if validate_action_requirements p then some p else none

/-- Structured confirmation interpretation, from cx_order_support.py
(class ConfirmationInterpretationOutput); it carries no model_validator. -/
structure ConfirmationInterpretationOutput where
  interpretation : ConfirmationInterpretation
  corrected_quantity : Option Int := none
  corrected_size : Option String := none
  corrected_color : Option String := none
  reasoning : String := ""
  deriving DecidableEq, Repr

/-! Python helpers. -/

/-- Python `a or b` on an optional int: None and 0 are falsy
(used by `target_quantity = new_quantity or old_quantity`). -/
def pyOrInt (a : Option Int) (b : Int) : Int :=
  match a with
  | some x => if x = 0 then b else x
  | none => b

/-- Python `a or b` on an optional str against an optional default: None and
the empty string are falsy. -/
def pyOrStrOpt (a : Option String) (b : Option String) : Option String :=
  match a with
  | some s => if s = "" then b else some s
  | none => b

/-- Python str.lower over the character list (the core string functions do not
reduce in the kernel, so the Python builtins are embedded charwise). -/
def strToLower (s : String) : String := ⟨s.data.map Char.toLower⟩

/-- Python str.startswith. -/
def strStartsWith (s p : String) : Bool := p.data.isPrefixOf s.data

/-- Python str.strip: drop whitespace from both ends. -/
def strTrim (s : String) : String :=
  ⟨((s.data.dropWhile Char.isWhitespace).reverse.dropWhile Char.isWhitespace).reverse⟩

/-- Helper of strSplitLines: split a character list at newlines. -/
def splitOnNewline (l : List Char) : List (List Char) :=
  match l with
  | [] => [[]]
  | c :: rest =>
    let tail := splitOnNewline rest
    if c = '\n' then [] :: tail
    else
      match tail with
      | [] => [[c]]
      | h :: t => (c :: h) :: t

/-- Python str.split on the newline separator. -/
def strSplitLines (s : String) : List String := (splitOnNewline s.data).map (fun l => ⟨l⟩)

/-- Python separator.join. -/
def strIntercalate (sep : String) (ls : List String) : String :=
  ⟨List.intercalate sep.data (ls.map String.data)⟩

/-- Mirror of CXOrderSupportAgent._strip_code_fences: when the text starts with
a markdown fence, drop the first and last line and strip the remainder. -/
def strip_code_fences (content : String) : String :=
  if ¬ strStartsWith content "```" then content
  else
    let lines := strSplitLines content
    strTrim (strIntercalate "\n" ((lines.drop 1).dropLast))

/-! Relational store (the transactional order-and-inventory store behind
    OrderService and the repositories). -/

structure Product where
  id : Nat
  name : String
  base_price : ℚ
  deriving DecidableEq, Repr

structure SizeRec where
  id : Nat
  name : String
  deriving DecidableEq, Repr

structure ColorRec where
  id : Nat
  name : String
  deriving DecidableEq, Repr

structure Inventory where
  id : Nat
  product_id : Nat
  color_id : Nat
  size_id : Nat
  available_qty : Int
  reserved_qty : Int
  deriving DecidableEq, Repr

structure OrderLineItem where
  id : Nat
  order_id : Nat
  inventory_id : Nat
  quantity : Int
  unit_price : ℚ
  deriving DecidableEq, Repr

structure OrderRec where
  id : Nat
  status : String
  total_amount : ℚ
  deriving DecidableEq, Repr

structure Db where
  products : List Product
  sizes : List SizeRec
  colors : List ColorRec
  inventories : List Inventory
  orders : List OrderRec
  lineItems : List OrderLineItem
  deriving DecidableEq, Repr

/-- InventoryRepository.get_by_id (query ... .one(), None models NoResultFound). -/
def findInventory (db : Db) (iid : Nat) : Option Inventory :=
  db.inventories.find? (fun i => i.id == iid)

/-- InventoryRepository.get_by_product_color_size. -/
def findInventoryByPCS (db : Db) (pid cid sid : Nat) : Option Inventory :=
  db.inventories.find? (fun i => i.product_id == pid && i.color_id == cid && i.size_id == sid)

/-- OrderLineItemRepository.get_by_id. -/
def findLineItem (db : Db) (lid : Nat) : Option OrderLineItem :=
  db.lineItems.find? (fun li => li.id == lid)

/-- OrderRepository.get_by_id. -/
def findOrder (db : Db) (oid : Nat) : Option OrderRec :=
  db.orders.find? (fun o => o.id == oid)

/-- ProductRepository-style lookup used for relationship navigation
(inventory.product). -/
def findProduct (db : Db) (pid : Nat) : Option Product :=
  db.products.find? (fun p => p.id == pid)

/-- OrderLineItemRepository.get_by_order_id. -/
def orderLineItems (db : Db) (oid : Nat) : List OrderLineItem :=
  db.lineItems.filter (fun li => li.order_id == oid)

/-- InventoryRepository.update: flush of the mutated row, keyed by id. -/
def updateInventory (db : Db) (inv : Inventory) : Db :=
  { db with inventories := db.inventories.map (fun i => if i.id == inv.id then inv else i) }

/-- OrderLineItemRepository.update. -/
def updateLineItem (db : Db) (li : OrderLineItem) : Db :=
  { db with lineItems := db.lineItems.map (fun x => if x.id == li.id then li else x) }

/-- OrderRepository.update. -/
def updateOrder (db : Db) (o : OrderRec) : Db :=
  { db with orders := db.orders.map (fun x => if x.id == o.id then o else x) }

/-- Total recomputation `sum(float(item.unit_price) * item.quantity for ...)`
used after every line-item mutation (order_service.py lines 672-675, 747-749). -/
def lineItemsTotal (items : List OrderLineItem) : ℚ :=
  (items.map (fun it => it.unit_price * (it.quantity : ℚ))).sum

/-- Exceptions of services/order_service.py plus the SQLAlchemy NoResultFound
raised by the repositories. -/
inductive OrderServiceError where
  | noResultFound
  | invalidStateTransition (msg : String)
  | insufficientInventory (msg : String)
  | invalidOrderModification (msg : String)
  | orderValidation (msg : String)
  deriving DecidableEq, Repr

/-- OrderService.MIN_ORDER_QUANTITY (order_service.py line 62). -/
def MIN_ORDER_QUANTITY : Int := 10

/-- Tail shared by every branch of OrderService.modify_line_item (lines
669-690): persist the line item, recompute the order total over the order's
current line items, persist the order and return it. -/
def finalizeLineItemChange (db : Db) (order : OrderRec) (order_id : Nat)
    (line_item : OrderLineItem) : Except OrderServiceError (Db × OrderRec) :=
  let db1 := updateLineItem db line_item
  let all_line_items := orderLineItems db1 order_id
  let order1 := { order with total_amount := lineItemsTotal all_line_items }
  .ok (updateOrder db1 order1, order1)

/-- OrderService.modify_line_item (order_service.py lines 573-690).  The
re-read of the target slot after the old reservation is released models the
SQLAlchemy identity map: when the old and new (product, color, size) rows
coincide the two Python names alias one mutated object. -/
def modify_line_item (db : Db) (order_id line_item_id : Nat)
    (new_quantity : Option Int) (new_size_id new_color_id : Option Nat) :
    Except OrderServiceError (Db × OrderRec) :=
  match findOrder db order_id with
  | none => .error .noResultFound
  | some order =>
  match findLineItem db line_item_id with
  | none => .error .noResultFound
  | some line_item =>
  if line_item.order_id ≠ order_id then
    .error (.invalidOrderModification
      ("Line item " ++ toString line_item_id ++ " does not belong to order " ++ toString order_id))
  else
  match findInventory db line_item.inventory_id with
  | none => .error .noResultFound
  | some old_inventory =>
  let old_quantity := line_item.quantity
  let needs_new_inventory := new_size_id.isSome || new_color_id.isSome
  if needs_new_inventory then
    let target_size_id := new_size_id.getD old_inventory.size_id
    let target_color_id := new_color_id.getD old_inventory.color_id
    let target_quantity := pyOrInt new_quantity old_quantity
    match findInventoryByPCS db old_inventory.product_id target_color_id target_size_id with
    | none => .error .noResultFound
    | some new_inventory =>
      if new_inventory.available_qty < target_quantity then
        .error (.insufficientInventory
          ("Insufficient inventory for new size/color. Available: "
            ++ toString new_inventory.available_qty
            ++ ", Requested: " ++ toString target_quantity))
      else
        let db1 := updateInventory db { old_inventory with
          available_qty := old_inventory.available_qty + old_quantity,
          reserved_qty := old_inventory.reserved_qty - old_quantity }
        match findInventory db1 new_inventory.id with
        | none => .error .noResultFound
        | some new_inv_cur =>
        let db2 := updateInventory db1 { new_inv_cur with
          available_qty := new_inv_cur.available_qty - target_quantity,
          reserved_qty := new_inv_cur.reserved_qty + target_quantity }
        match findProduct db new_inventory.product_id with
        | none => .error .noResultFound
        | some product =>
        finalizeLineItemChange db2 order order_id { line_item with
          inventory_id := new_inventory.id,
          quantity := target_quantity,
          unit_price := product.base_price }
  else
    match new_quantity with
    | some nq =>
      let quantity_diff := nq - old_quantity
      if quantity_diff > 0 then
        if old_inventory.available_qty < quantity_diff then
          .error (.insufficientInventory
            ("Insufficient inventory. Available: " ++ toString old_inventory.available_qty
              ++ ", Additional needed: " ++ toString quantity_diff))
        else
          let db1 := updateInventory db { old_inventory with
            available_qty := old_inventory.available_qty - quantity_diff,
            reserved_qty := old_inventory.reserved_qty + quantity_diff }
          finalizeLineItemChange db1 order order_id { line_item with quantity := nq }
      else
        let db1 := updateInventory db { old_inventory with
          available_qty := old_inventory.available_qty - quantity_diff,
          reserved_qty := old_inventory.reserved_qty + quantity_diff }
        finalizeLineItemChange db1 order order_id { line_item with quantity := nq }
    | none => finalizeLineItemChange db order order_id line_item

/-- OrderService.remove_line_item (order_service.py lines 692-764).  The
repository delete removes the row keyed by the line item id. -/
def remove_line_item (db : Db) (order_id line_item_id : Nat) :
    Except OrderServiceError (Db × OrderRec) :=
  match findOrder db order_id with
  | none => .error .noResultFound
  | some order =>
  match findLineItem db line_item_id with
  | none => .error .noResultFound
  | some line_item =>
  if line_item.order_id ≠ order_id then
    .error (.invalidOrderModification
      ("Line item " ++ toString line_item_id ++ " does not belong to order " ++ toString order_id))
  else
  let all_line_items := orderLineItems db order_id
  let remaining_line_items := all_line_items.filter (fun li => ¬ (li.id == line_item_id))
  let remaining_quantity := (remaining_line_items.map (fun li => li.quantity)).sum
  if remaining_quantity < MIN_ORDER_QUANTITY then
    .error (.orderValidation
      ("Cannot remove line item. Order must have at least " ++ toString MIN_ORDER_QUANTITY
        ++ " total items. Remaining after removal: " ++ toString remaining_quantity))
  else
  match findInventory db line_item.inventory_id with
  | none => .error .noResultFound
  | some inventory =>
    let db1 := updateInventory db { inventory with
      available_qty := inventory.available_qty + line_item.quantity,
      reserved_qty := inventory.reserved_qty - line_item.quantity }
    let db2 := { db1 with lineItems := db1.lineItems.filter (fun li => ¬ (li.id == line_item_id)) }
    let order1 := { order with total_amount := lineItemsTotal remaining_line_items }
    .ok (updateOrder db2 order1, order1)

/-! Tool layer (src/backend/src/agents/tools/order_tools.py). -/

/-- Enriched line item as produced by OrderService._build_enriched_line_items
and consumed by the agent through EnrichedOrder.model_dump. -/
structure EnrichedLineItem where
  id : Nat
  order_id : Nat
  inventory_id : Nat
  quantity : Int
  unit_price : ℚ
  product_name : String
  size : String
  color : String
  deriving DecidableEq, Repr

/-- Relationship navigation inventory.product.name; dangling ids (which cannot
occur under foreign-key integrity) resolve to the empty string. -/
def productName (db : Db) (pid : Nat) : String :=
  ((findProduct db pid).map (fun p => p.name)).getD ""

/-- Relationship navigation inventory.size.name. -/
def sizeName (db : Db) (sid : Nat) : String :=
  ((db.sizes.find? (fun s => s.id == sid)).map (fun s => s.name)).getD ""

/-- Relationship navigation inventory.color.name. -/
def colorName (db : Db) (cid : Nat) : String :=
  ((db.colors.find? (fun c => c.id == cid)).map (fun c => c.name)).getD ""

/-- One step of OrderService._build_enriched_line_items: the inventory row of
the line item must exist (get_by_id raises otherwise). -/
def enrichLineItem (db : Db) (li : OrderLineItem) : Option EnrichedLineItem :=
  (findInventory db li.inventory_id).map (fun inv =>
    { id := li.id, order_id := li.order_id, inventory_id := li.inventory_id,
      quantity := li.quantity, unit_price := li.unit_price,
      product_name := productName db inv.product_id,
      size := sizeName db inv.size_id,
      color := colorName db inv.color_id })

/-- OrderService._build_enriched_line_items over an order. -/
def getEnrichedLineItems (db : Db) (oid : Nat) : Option (List EnrichedLineItem) :=
  (orderLineItems db oid).mapM (enrichLineItem db)

/-- Slice of EnrichedOrder.model_dump consumed by the agent nodes
(OrderTools.get_order_details). -/
structure OrderDetails where
  status : String
  total_amount : ℚ
  line_items : List EnrichedLineItem
  deriving DecidableEq, Repr

/-- OrderTools.get_order_details (order_tools.py lines 42-55). -/
def get_order_details (db : Db) (oid : Nat) : Except OrderServiceError OrderDetails :=
  match findOrder db oid with
  | none => .error .noResultFound
  | some o =>
    match getEnrichedLineItems db oid with
    | none => .error .noResultFound
    | some items =>
      .ok { status := o.status, total_amount := o.total_amount, line_items := items }

/-- OrderService.get_available_sizes_for_product (order_service.py lines
766-790): deduplicate the product's inventory rows by size id, keeping first
occurrence order. -/
def get_available_sizes_for_product (db : Db) (pid : Nat) : List (Nat × String) :=
  (db.inventories.filter (fun i => i.product_id == pid)).foldl
    (fun acc i =>
      if (acc.map Prod.fst).contains i.size_id then acc
      else acc ++ [(i.size_id, sizeName db i.size_id)]) []

/-- OrderService.get_available_colors_for_product (lines 792-816). -/
def get_available_colors_for_product (db : Db) (pid : Nat) : List (Nat × String) :=
  (db.inventories.filter (fun i => i.product_id == pid)).foldl
    (fun acc i =>
      if (acc.map Prod.fst).contains i.color_id then acc
      else acc ++ [(i.color_id, colorName db i.color_id)]) []

/-- Exceptions escaping order_tools.py: its own three domain exceptions plus
any uncaught exception bubbling up from the service layer. -/
inductive ToolError where
  | lineItemNotFound (msg : String)
  | invalidSize (msg : String)
  | invalidColor (msg : String)
  | uncaught (e : OrderServiceError)
  deriving DecidableEq, Repr

/-- Target line-item search shared by the tool entry points (order_tools.py
lines 94-110, 220-236): by id when given, else by the case-insensitive
(product, size, color) name triple; Python truthiness makes empty name
strings skip the search. -/
def findTargetLineItem (items : List EnrichedLineItem) (line_item_id : Option Nat)
    (product_name size_name color_name : String) : Option EnrichedLineItem :=
  match line_item_id with
  | some lid => items.find? (fun it => it.id == lid)
  | none =>
    if product_name ≠ "" ∧ size_name ≠ "" ∧ color_name ≠ "" then
      items.find? (fun it =>
        strToLower it.product_name == strToLower product_name &&
        strToLower it.size == strToLower size_name &&
        strToLower it.color == strToLower color_name)
    else none

/-- OrderTools.modify_line_item (order_tools.py lines 57-189).  Returns the
result dict as (new store, success flag, message); service-layer
InsufficientInventoryError and InvalidOrderModificationError become
success=False dicts, everything else escapes. -/
def tools_modify_line_item (db : Db) (order_id : Nat) (line_item_id : Option Nat)
    (product_name size_name color_name : String)
    (new_quantity : Option Int) (new_size_name new_color_name : Option String) :
    Except ToolError (Db × Bool × String) :=
  match findOrder db order_id with
  | none => .error (.uncaught .noResultFound)
  | some _ =>
  match getEnrichedLineItems db order_id with
  | none => .error (.uncaught .noResultFound)
  | some items =>
  match findTargetLineItem items line_item_id product_name size_name color_name with
  | none => .error (.lineItemNotFound
      ("Could not find line item matching criteria. product=" ++ product_name
        ++ ", size=" ++ size_name ++ ", color=" ++ color_name))
  | some target_line_item =>
  match findInventory db target_line_item.inventory_id with
  | none => .error (.uncaught .noResultFound)
  | some inventory =>
  let product_id := inventory.product_id
  let sizeRes : Except ToolError (Option Nat) :=
    match new_size_name with
    | some nsn =>
      if nsn = "" then .ok none
      else
        let available_sizes := get_available_sizes_for_product db product_id
        match available_sizes.find? (fun s => strToLower s.2 == strToLower nsn) with
        | some s => .ok (some s.1)
        | none => .error (.invalidSize
            ("Size \x27" ++ nsn ++ "\x27 is not available for this product. Available sizes: "
              ++ String.intercalate ", " (available_sizes.map Prod.snd)))
    | none => .ok none
  match sizeRes with
  | .error e => .error e
  | .ok new_size_id =>
  let colorRes : Except ToolError (Option Nat) :=
    match new_color_name with
    | some ncn =>
      if ncn = "" then .ok none
      else
        let available_colors := get_available_colors_for_product db product_id
        match available_colors.find? (fun c => strToLower c.2 == strToLower ncn) with
        | some c => .ok (some c.1)
        | none => .error (.invalidColor
            ("Color \x27" ++ ncn ++ "\x27 is not available for this product. Available colors: "
              ++ String.intercalate ", " (available_colors.map Prod.snd)))
    | none => .ok none
  match colorRes with
  | .error e => .error e
  | .ok new_color_id =>
  match modify_line_item db order_id target_line_item.id new_quantity new_size_id new_color_id with
  | .ok (db2, _order) => .ok (db2, true, "Line item modified successfully")
  | .error (.insufficientInventory m) => .ok (db, false, m)
  | .error (.invalidOrderModification m) => .ok (db, false, m)
  | .error e => .error (.uncaught e)

/-- OrderTools.remove_line_item (order_tools.py lines 191-266). -/
def tools_remove_line_item (db : Db) (order_id : Nat) (line_item_id : Option Nat)
    (product_name size_name color_name : String) :
    Except ToolError (Db × Bool × String) :=
  match findOrder db order_id with
  | none => .error (.uncaught .noResultFound)
  | some _ =>
  match getEnrichedLineItems db order_id with
  | none => .error (.uncaught .noResultFound)
  | some items =>
  match findTargetLineItem items line_item_id product_name size_name color_name with
  | none => .error (.lineItemNotFound
      ("Could not find line item matching criteria. product=" ++ product_name
        ++ ", size=" ++ size_name ++ ", color=" ++ color_name))
  | some target_line_item =>
  match remove_line_item db order_id target_line_item.id with
  | .ok (db2, _order) => .ok (db2, true, "Line item removed successfully")
  | .error (.invalidOrderModification m) => .ok (db, false, m)
  | .error (.orderValidation m) => .ok (db, false, m)
  | .error e => .error (.uncaught e)

/-! Agent layer (src/backend/src/agents/cx_order_support_agent.py). -/

/-- Slice of PolicyEvaluationResult (policy_tool.py lines 37-63) that drives
the agent routing; the remaining fields are narrative payload. -/
structure PolicyEvalResult where
  decision : PolicyDecision
  change_type : ChangeType
  deriving DecidableEq, Repr

/-- External collaborators of the state machine: every call of the Bedrock
model, the JSON parsing layers (json.loads plus Pydantic field coercion) of
the three oracle output schemas, the policy tool evaluation, and the generated
modification id.  Each raw text function stands for one model.invoke site. -/
structure OracleEnv where
  intentRaw : String → String
  validateIntentJson : String → Option Intent
  extractRaw : String → String
  modificationJson : String → Option PendingModification
  interpretRaw : String → PendingModification → String
  validateInterpretation : String → Option ConfirmationInterpretationOutput
  repairRaw : String → String → String
  offTopicText : String → String
  summaryText : String → String
  confirmQuestionText : String → String
  denialText : String
  conditionText : String
  policyEvaluate : String → ChangeType → ℚ → ℚ → PolicyEvalResult
  newId : String

/-- CXOrderSupportAgent._repair_json_once (agent lines 199-213): one model call
re-presenting the bad output for the named schema, fences stripped. -/
def repair_json_once (env : OracleEnv) (schema_name bad_output : String) : String :=
  strip_code_fences (env.repairRaw schema_name bad_output)

/-- CXOrderSupportAgent._parse_intent (agent lines 251-261).  The second
component counts the repair requests issued on this path; the source contains
no _repair_json_once call here, so it is zero on every branch. -/
def parse_intent (env : OracleEnv) (raw : String) : Intent × Nat :=
  let content := strip_code_fences raw
  match intentOfValue content with
  | some i => (i, 0)
  | none =>
    match env.validateIntentJson content with
    | some i => (i, 0)
    | none => (.unclear, 0)

/-- CXOrderSupportAgent._normalize_and_validate_modification (agent lines
422-440): the external json.loads plus dict normalization produces a candidate
record, then the repository-owned Pydantic validator decides. -/
def normalize_and_validate_modification (env : OracleEnv) (content : String) :
    Option PendingModification :=
  (env.modificationJson content).bind model_validate_pending

/-- CXOrderSupportAgent._parse_modification (agent lines 396-420): parse, on
failure repair exactly once, on second failure give up with None.  The second
component counts repair requests. -/
def parse_modification (env : OracleEnv) (user_message : String) :
    Option PendingModification × Nat :=
  let raw := strip_code_fences (env.extractRaw user_message)
  match normalize_and_validate_modification env raw with
  | some pm => (some pm, 0)
  | none =>
    let repaired := repair_json_once env "PendingModification" raw
    match normalize_and_validate_modification env repaired with
    | some pm => (some pm, 1)
    | none => (none, 1)

/-- Safe default of _interpret_confirmation when parsing fails twice. -/
def unclearInterpretationFallback : ConfirmationInterpretationOutput :=
  { interpretation := .unclear, reasoning := "Failed to parse LLM response" }

/-- CXOrderSupportAgent._interpret_confirmation (agent lines 535-579): parse,
repair exactly once, then fall back to an UNCLEAR interpretation.  The second
component counts repair requests. -/
def interpret_confirmation (env : OracleEnv) (user_message : String)
    (pm : PendingModification) : ConfirmationInterpretationOutput × Nat :=
  let content := strip_code_fences (env.interpretRaw user_message pm)
  match env.validateInterpretation content with
  | some out => (out, 0)
  | none =>
    let repaired := repair_json_once env "ConfirmationInterpretationOutput" content
    match env.validateInterpretation repaired with
    | some out => (out, 1)
    | none => (unclearInterpretationFallback, 1)

/-! Canned response texts of the agent source. -/

def alreadyAppliedMsg : String :=
  "That change was already applied. Is there anything else you want to update?"

def cancelledChangeMsg : String :=
  "That change was cancelled. Is there anything else I can help with on your order?"

def noPendingToConfirmMsg : String :=
  "I don\x27t have a pending change to confirm. What would you like to change in your order?"

def cancelAckMsg : String :=
  "No problem, I\x27ve cancelled that change. Is there something else I can help you with regarding your order?"

def unclearConfirmMsg : String :=
  "I\x27m not quite sure what you\x27d like to do. Could you please clarify - would you like me to proceed with the change, or would you prefer something different?"

def unclearIntentMsg : String :=
  "I can help with your order. Do you want an order summary/status update, or would you like to change a line item (quantity, size, color, or remove an item)?"

def cannotUnderstandChangeMsg : String :=
  "I couldn\x27t understand the exact change you want. Please tell me which item (product name, size, color) and what you want to change (new quantity/size/color), or say \x27remove it\x27."

def unsupportedChangeReferralMsg : String :=
  "I understand you\x27d like to make a change to your order, but I\x27m only able to help with modifying quantities, sizes, or colors of line items, or removing items from your order. For other changes like shipping address or artwork modifications, please contact our customer service team at 888-888-8888 for assistance."

/-- Failure branch of _execute_modification (agent lines 668-674). -/
def failureReferral (error_msg : String) : String :=
  "I wasn\x27t able to complete that change: " ++ error_msg
    ++ ". Please contact our customer service team at 888-888-8888 for assistance."

/-- LineItemNotFoundError handler of _execute_modification (agent lines 676-682). -/
def lineItemNotFoundResponse : String :=
  "I couldn\x27t find that item in your order. Could you please verify the product name, size, and color? You can ask me to show your order details if you\x27d like to review what\x27s in your order."

/-- Unsupported-action branch of _execute_modification (agent lines 661-666). -/
def unsupportedExecuteResponse : String :=
  "I\x27m sorry, but I can only help with modifying quantities, sizes, or colors of line items, or removing items from your order. For other changes, please contact our customer service team at 888-888-8888."

def noPendingToEvaluateMsg : String :=
  "I don\x27t have a pending change to evaluate. What would you like to change in your order?"

def noPendingPolicyMsg : String :=
  "I don\x27t have a pending change. What would you like to do?"

def policyUnclearMsg : String :=
  "I need a clear yes or no. Would you like me to proceed with the change given the conditions I mentioned?"

def noPendingExecuteMsg : String := "No pending modification to execute."

def somethingWentWrongMsg : String := "Something went wrong. Please try again."

/-- CXOrderSupportAgent._build_success_message (agent lines 999-1040).  With
zero changes the Python indexes changes[0] out of range; that input is
excluded by the PendingModification validator for MODIFY actions. -/
def buildSuccessMessage (product_name size_name color_name : String)
    (new_quantity : Option Int) (new_size new_color : Option String) : String :=
  let changes :=
    (match new_quantity with
     | some q => ["quantity to " ++ toString q]
     | none => []) ++
    (match new_size with
     | some s => ["size from " ++ size_name ++ " to " ++ s]
     | none => []) ++
    (match new_color with
     | some c => ["color from " ++ color_name ++ " to " ++ c]
     | none => [])
  let change_desc :=
    match changes with
    | [c] => c
    | [c1, c2] => c1 ++ " and " ++ c2
    | c1 :: c2 :: c3 :: _ => c1 ++ ", " ++ c2 ++ ", and " ++ c3
    | [] => ""
  "Done! I\x27ve updated the " ++ product_name ++ ": " ++ change_desc
    ++ ". Is there anything else I can help you with?"

/-- CXOrderSupportAgent._execute_modification (agent lines 595-688): dispatch
to the tools, turn success/failure dicts and the three caught domain
exceptions into response text; everything else propagates as an exception. -/
def execute_modification (db : Db) (order_id : Nat) (m : PendingModification) :
    Except OrderServiceError (Db × String) :=
  match m.action with
  | .remove_item =>
    (match tools_remove_line_item db order_id none m.product_name m.size_name m.color_name with
     | .ok (db2, true, _msg) =>
       .ok (db2, "Done! I\x27ve removed the " ++ m.size_name ++ " " ++ m.color_name ++ " "
         ++ m.product_name ++ " from your order. Is there anything else I can help you with?")
     | .ok (db2, false, emsg) => .ok (db2, failureReferral emsg)
     | .error (.lineItemNotFound _) => .ok (db, lineItemNotFoundResponse)
     | .error (.invalidSize e) => .ok (db, e)
     | .error (.invalidColor e) => .ok (db, e)
     | .error (.uncaught e) => .error e)
  | .modify =>
    (match tools_modify_line_item db order_id none m.product_name m.size_name m.color_name
        m.new_quantity m.new_size m.new_color with
     | .ok (db2, true, _msg) =>
       .ok (db2, buildSuccessMessage m.product_name m.size_name m.color_name
         m.new_quantity m.new_size m.new_color)
     | .ok (db2, false, emsg) => .ok (db2, failureReferral emsg)
     | .error (.lineItemNotFound _) => .ok (db, lineItemNotFoundResponse)
     | .error (.invalidSize e) => .ok (db, e)
     | .error (.invalidColor e) => .ok (db, e)
     | .error (.uncaught e) => .error e)
  | .unsupported => .ok (db, unsupportedExecuteResponse)

/-- AgentState TypedDict (agent lines 42-56); the message list is carried as
the current user message argument of the nodes. -/
structure AgentState where
  response : String
  intent : Intent
  order_id : Nat
  order_details : Option OrderDetails
  understanding_confirmed : Bool
  pending_modification : Option PendingModification
  pending_modification_id : Option String
  pending_modification_status : Option PendingModificationStatus
  policy_evaluation : Option PolicyEvalResult
  policy_confirmation_status : Option PolicyConfirmationStatus
  deriving DecidableEq, Repr

/-- Uncaught Python exceptions escaping an agent node: Pydantic
ValidationError on state round-trips, attribute errors on a missing
order_details dict, and service/repository exceptions. -/
inductive AgentError where
  | validationError
  | service (e : OrderServiceError)
  deriving DecidableEq, Repr

/-- CXOrderSupportAgent._intent_classification (agent lines 215-249).  The
Bool reports whether the classification oracle was invoked at all. -/
def intent_classification (env : OracleEnv) (user_message : String)
    (st : AgentState) : AgentState × Bool :=
  if st.policy_confirmation_status = some .pending then
    ({ st with intent := .policy_confirmation }, false)
  else
    ({ st with intent := (parse_intent env (env.intentRaw user_message)).1 }, true)

/-- CXOrderSupportAgent._unclear_intent_response (agent lines 263-269). -/
def unclear_intent_response (st : AgentState) : AgentState :=
  { st with response := unclearIntentMsg }

/-- CXOrderSupportAgent._off_topic_response (agent lines 271-295). -/
def off_topic_response (env : OracleEnv) (user_message : String)
    (st : AgentState) : AgentState :=
  { st with response := env.offTopicText user_message }

/-- CXOrderSupportAgent._order_summary (agent lines 297-328). -/
def order_summary (env : OracleEnv) (db : Db) (user_message : String)
    (st : AgentState) : Except AgentError AgentState :=
  match get_order_details db st.order_id with
  | .error e => .error (.service e)
  | .ok od => .ok { st with
      order_details := some od,
      response := env.summaryText user_message }

/-- CXOrderSupportAgent._fetch_order_details (agent lines 330-394). -/
def fetch_order_details (env : OracleEnv) (db : Db) (user_message : String)
    (st : AgentState) : Except AgentError AgentState :=
  match get_order_details db st.order_id with
  | .error e => .error (.service e)
  | .ok od =>
    let st1 := { st with order_details := some od }
    match (parse_modification env user_message).1 with
    | none =>
      .ok { st1 with
        pending_modification := none, pending_modification_id := none,
        pending_modification_status := none, response := cannotUnderstandChangeMsg }
    | some pending =>
      if pending.action = .unsupported then
        .ok { st1 with
          pending_modification := none, pending_modification_id := none,
          pending_modification_status := none, response := unsupportedChangeReferralMsg }
      else
        .ok { st1 with
          pending_modification := some pending,
          pending_modification_id := some env.newId,
          pending_modification_status := some .pending,
          response := env.confirmQuestionText user_message }

/-- CXOrderSupportAgent._confirm_understanding (agent lines 442-527). -/
def confirm_understanding (env : OracleEnv) (user_message : String)
    (st : AgentState) : Except AgentError AgentState :=
  if st.pending_modification_status = some .executed then
    .ok { st with response := alreadyAppliedMsg }
  else if st.pending_modification_status = some .cancelled then
    .ok { st with response := cancelledChangeMsg }
  else
    match st.pending_modification with
    | none => .ok { st with response := noPendingToConfirmMsg }
    | some pending_raw =>
      if st.pending_modification_status ≠ some .pending then
        .ok { st with response := noPendingToConfirmMsg }
      else
        match model_validate_pending pending_raw with
        | none => .error .validationError
        | some pending_mod =>
          let out := (interpret_confirmation env user_message pending_mod).1
          match out.interpretation with
          | .confirmed =>
            .ok { st with understanding_confirmed := true, response := "" }
          | .correction =>
            let merged := { pending_mod with
              new_quantity :=
                (match out.corrected_quantity with
                 | some q => some q
                 | none => pending_mod.new_quantity),
              new_size := pyOrStrOpt out.corrected_size pending_mod.new_size,
              new_color := pyOrStrOpt out.corrected_color pending_mod.new_color }
            (match model_validate_pending merged with
             | none => .error .validationError
             | some corrected =>
               .ok { st with
                 pending_modification := some corrected,
                 understanding_confirmed := true, response := "" })
          | .rejected =>
            .ok { st with
              understanding_confirmed := false, response := cancelAckMsg,
              pending_modification := none,
              pending_modification_status := some .cancelled }
          | .unclear =>
            .ok { st with understanding_confirmed := false, response := unclearConfirmMsg }

/-- CXOrderSupportAgent._route_after_confirmation (agent lines 529-533). -/
def route_after_confirmation (st : AgentState) : String :=
  if st.understanding_confirmed then "policy_evaluation" else "end"

/-- CXOrderSupportAgent._get_original_quantity (agent lines 725-746). -/
def get_original_quantity (m : PendingModification)
    (line_items : List EnrichedLineItem) : Option Int :=
  (line_items.find? (fun it =>
    strToLower it.product_name == strToLower m.product_name &&
    strToLower it.size == strToLower m.size_name &&
    strToLower it.color == strToLower m.color_name)).map (fun it => it.quantity)

/-- CXOrderSupportAgent._determine_change_type (agent lines 690-723). -/
def determine_change_type (m : PendingModification)
    (order_line_items : List EnrichedLineItem) : ChangeType :=
  if m.action = .remove_item then .remove_item
  else
    match m.new_quantity with
    | some nq =>
      (match get_original_quantity m order_line_items with
       | some oq =>
         if nq > oq then .quantity_increase
         else if nq < oq then .quantity_decrease
         else .quantity_decrease
       | none => .quantity_decrease)
    | none =>
      if m.new_size.isSome then .size_change
      else if m.new_color.isSome then .color_change
      else .quantity_decrease

/-- CXOrderSupportAgent._policy_evaluation (agent lines 748-827).  When the
checkpointed order_details is None the Python `order_details.get` raises; a
missing pending modification answers and clears the evaluation instead. -/
def policy_evaluation_node (env : OracleEnv) (st : AgentState) :
    Except AgentError AgentState :=
  match st.pending_modification with
  | none =>
    .ok { st with response := noPendingToEvaluateMsg, policy_evaluation := none }
  | some pending_raw =>
    match model_validate_pending pending_raw with
    | none => .error .validationError
    | some pending_mod =>
      match st.order_details with
      | none => .error .validationError
      | some od =>
        let change_type := determine_change_type pending_mod od.line_items
        let affected_amount : ℚ :=
          match od.line_items.find? (fun it =>
            strToLower it.product_name == strToLower pending_mod.product_name &&
            strToLower it.size == strToLower pending_mod.size_name &&
            strToLower it.color == strToLower pending_mod.color_name) with
          | some it => (it.quantity : ℚ) * it.unit_price
          | none => 0
        let evaluation := env.policyEvaluate od.status change_type affected_amount od.total_amount
        let st1 := { st with policy_evaluation := some evaluation }
        match evaluation.decision with
        | .denied =>
          .ok { st1 with
            response := env.denialText, pending_modification := none,
            pending_modification_status := some .cancelled }
        | .conditional =>
          .ok { st1 with policy_confirmation_status := some .pending, response := "" }
        | .allowed => .ok st1

/-- CXOrderSupportAgent._route_after_policy_evaluation (agent lines 829-841). -/
def route_after_policy_evaluation (st : AgentState) : String :=
  match st.policy_evaluation with
  | none => "end"
  | some ev =>
    match ev.decision with
    | .allowed => "execute"
    | .conditional => "conditional"
    | .denied => "denied"

/-- CXOrderSupportAgent._policy_condition_response (agent lines 877-920). -/
def policy_condition_response (env : OracleEnv) (st : AgentState) : AgentState :=
  match st.policy_evaluation with
  | none => { st with response := somethingWentWrongMsg }
  | some _ => { st with response := env.conditionText }

/-- CXOrderSupportAgent._policy_condition_confirmation (agent lines 922-967). -/
def policy_condition_confirmation (env : OracleEnv) (user_message : String)
    (st : AgentState) : Except AgentError AgentState :=
  match st.pending_modification with
  | none =>
    .ok { st with response := noPendingPolicyMsg, policy_confirmation_status := none }
  | some pending_raw =>
    match model_validate_pending pending_raw with
    | none => .error .validationError
    | some pending_mod =>
      let out := (interpret_confirmation env user_message pending_mod).1
      match out.interpretation with
      | .confirmed =>
        .ok { st with policy_confirmation_status := some .accepted, response := "" }
      | .rejected =>
        .ok { st with
          policy_confirmation_status := some .rejected,
          response := cancelAckMsg, pending_modification := none,
          pending_modification_status := some .cancelled }
      | _ => .ok { st with response := policyUnclearMsg }

/-- CXOrderSupportAgent._route_after_policy_condition_confirmation (agent
lines 969-974). -/
def route_after_policy_condition_confirmation (st : AgentState) : String :=
  if st.policy_confirmation_status = some .accepted then "execute" else "cancelled"

/-- CXOrderSupportAgent._execute_modification_node (agent lines 976-997): runs
the modification, then unconditionally clears pending_modification and marks
the status EXECUTED, regardless of whether the result text reports success or
a caught domain error. -/
def execute_modification_node (db : Db) (st : AgentState) :
    Except AgentError (Db × AgentState) :=
  match st.pending_modification with
  | none => .ok (db, { st with response := noPendingExecuteMsg })
  | some pending_raw =>
    match model_validate_pending pending_raw with
    | none => .error .validationError
    | some pending_mod =>
      match execute_modification db st.order_id pending_mod with
      | .error e => .error (.service e)
      | .ok (db2, result) =>
        .ok (db2, { st with
          response := result, pending_modification := none,
          pending_modification_status := some .executed })

/-- Cross-turn checkpointed session fields restored by process_message (agent
lines 1059-1098). -/
structure SessionState where
  order_details : Option OrderDetails := none
  pending_modification : Option PendingModification := none
  pending_modification_id : Option String := none
  pending_modification_status : Option PendingModificationStatus := none
  policy_evaluation : Option PolicyEvalResult := none
  policy_confirmation_status : Option PolicyConfirmationStatus := none
  deriving DecidableEq, Repr

/-- The initial_state dict built by process_message for every turn (agent
lines 1086-1098). -/
def initial_state (order_id : Nat) (s : SessionState) : AgentState :=
  { response := "", intent := .unclear, order_id := order_id,
    order_details := s.order_details, understanding_confirmed := false,
    pending_modification := s.pending_modification,
    pending_modification_id := s.pending_modification_id,
    pending_modification_status := s.pending_modification_status,
    policy_evaluation := s.policy_evaluation,
    policy_confirmation_status := s.policy_confirmation_status }

/-- The checkpointed slice of the final graph state, as read back by the next
turn of process_message. -/
def session_of (st : AgentState) : SessionState :=
  { order_details := st.order_details,
    pending_modification := st.pending_modification,
    pending_modification_id := st.pending_modification_id,
    pending_modification_status := st.pending_modification_status,
    policy_evaluation := st.policy_evaluation,
    policy_confirmation_status := st.policy_confirmation_status }

/-- One full dialogue turn: the compiled LangGraph flow of _build_graph (agent
lines 92-171) run on the state built by process_message. -/
def agent_step (env : OracleEnv) (db : Db) (user_message : String)
    (order_id : Nat) (s : SessionState) : Except AgentError (Db × AgentState) :=
  let st0 := initial_state order_id s
  let st1 := (intent_classification env user_message st0).1
  match st1.intent with
  | .off_topic => .ok (db, off_topic_response env user_message st1)
  | .unclear => .ok (db, unclear_intent_response st1)
  | .order_inquiry =>
    (match order_summary env db user_message st1 with
     | .error e => .error e
     | .ok st2 => .ok (db, st2))
  | .order_change =>
    (match fetch_order_details env db user_message st1 with
     | .error e => .error e
     | .ok st2 => .ok (db, st2))
  | .confirmation =>
    (match confirm_understanding env user_message st1 with
     | .error e => .error e
     | .ok st2 =>
       if route_after_confirmation st2 = "policy_evaluation" then
         match policy_evaluation_node env st2 with
         | .error e => .error e
         | .ok st3 =>
           if route_after_policy_evaluation st3 = "execute" then
             execute_modification_node db st3
           else if route_after_policy_evaluation st3 = "conditional" then
             .ok (db, policy_condition_response env st3)
           else .ok (db, st3)
       else .ok (db, st2))
  | .policy_confirmation =>
    (match policy_condition_confirmation env user_message st1 with
     | .error e => .error e
     | .ok st2 =>
       if route_after_policy_condition_confirmation st2 = "execute" then
         execute_modification_node db st2
       else .ok (db, st2))

/-! Concrete sample data used to instantiate the theorems: one product in two
sizes and two colors, one CREATED order with two line items. -/

def exDb : Db :=
  { products := [{ id := 1, name := "Gildan T-Shirt", base_price := 5 }],
    sizes := [{ id := 1, name := "Small" }, { id := 2, name := "Medium" }],
    colors := [{ id := 1, name := "Navy" }, { id := 2, name := "Red" }],
    inventories :=
      [{ id := 1, product_id := 1, color_id := 1, size_id := 1, available_qty := 5, reserved_qty := 50 },
       { id := 2, product_id := 1, color_id := 1, size_id := 2, available_qty := 100, reserved_qty := 5 },
       { id := 3, product_id := 1, color_id := 2, size_id := 1, available_qty := 3, reserved_qty := 0 }],
    orders := [{ id := 10, status := "CREATED", total_amount := 275 }],
    lineItems :=
      [{ id := 20, order_id := 10, inventory_id := 1, quantity := 50, unit_price := 5 },
       { id := 21, order_id := 10, inventory_id := 2, quantity := 5, unit_price := 5 }] }

/-- Pending MODIFY raising the first line item's quantity from 50 to 75; only
5 units are available, so execution hits InsufficientInventoryError. -/
def exPendingIncrease : PendingModification :=
  { action := .modify, product_name := "Gildan T-Shirt", size_name := "Small",
    color_name := "Navy", new_quantity := some 75 }

/-- Agent state of a turn that reached execution with exPendingIncrease
confirmed. -/
def exState : AgentState :=
  { response := "", intent := .confirmation, order_id := 10, order_details := none,
    understanding_confirmed := true, pending_modification := some exPendingIncrease,
    pending_modification_id := some "m1",
    pending_modification_status := some .pending,
    policy_evaluation := some { decision := .allowed, change_type := .quantity_increase },
    policy_confirmation_status := none }

/-- Oracle environment whose text calls return fixed strings and whose JSON
validators always fail; used to instantiate universally quantified theorems. -/
def constOracleEnv (intentText : String) : OracleEnv :=
  { intentRaw := fun _ => intentText,
    validateIntentJson := fun _ => none,
    extractRaw := fun _ => "",
    modificationJson := fun _ => none,
    interpretRaw := fun _ _ => "",
    validateInterpretation := fun _ => none,
    repairRaw := fun _ _ => "",
    offTopicText := fun _ => "",
    summaryText := fun _ => "",
    confirmQuestionText := fun _ => "",
    denialText := "",
    conditionText := "",
    policyEvaluate := fun _ _ _ _ => { decision := .denied, change_type := .quantity_decrease },
    newId := "m1" }

/-! Helper lemmas about the map-replace update and filter delete of the
relational store. -/

theorem find?_map_replace {α : Type} (key : α → Nat) (k : Nat) (a b : α)
    (hb : key b = key a) :
    ∀ l : List α, l.find? (fun x => key x == k) = some a →
    (l.map (fun x => if key x == key b then b else x)).find? (fun x => key x == k) = some b := by
  intro l
  induction l with
  | nil => intro h; simp at h
  | cons x xs ih =>
    intro h
    rw [List.find?_cons] at h
    simp only [List.map_cons]
    rw [List.find?_cons]
    by_cases hx : key x = k
    · simp only [show (key x == k) = true by simpa using hx] at h
      injection h with h
      subst h
      have hbk : key b = key x := hb
      simp [hbk, hx]
    · simp only [show (key x == k) = false by simpa using hx] at h
      have hak : key a = k := by simpa using List.find?_some h
      have hbk : key b = k := by rw [hb]; exact hak
      have hne : ¬ key x = key b := by rw [hbk]; exact hx
      simp only [show (key x == key b) = false by simpa using hne, Bool.false_eq_true,
        if_false]
      simp only [show (key x == k) = false by simpa using hx]
      exact ih h

theorem find?_map_replace_ne {α : Type} (key : α → Nat) (k : Nat) (b : α)
    (hb : key b ≠ k) :
    ∀ l : List α,
    (l.map (fun x => if key x == key b then b else x)).find? (fun x => key x == k) =
      l.find? (fun x => key x == k) := by
  intro l
  induction l with
  | nil => simp
  | cons x xs ih =>
    simp only [List.map_cons]
    rw [List.find?_cons, List.find?_cons]
    by_cases hxb : key x = key b
    · simp only [show (key x == key b) = true by simpa using hxb, if_true]
      have hxk : ¬ key x = k := by rw [hxb]; exact hb
      simp only [show (key b == k) = false by simpa using hb,
        show (key x == k) = false by simpa using hxk]
      exact ih
    · simp only [show (key x == key b) = false by simpa using hxb, Bool.false_eq_true, if_false]
      by_cases hxk : key x = k
      · simp only [show (key x == k) = true by simpa using hxk]
      · simp only [show (key x == k) = false by simpa using hxk]
        exact ih

theorem find?_id_filtered_out (l : List OrderLineItem) (lid : Nat) :
    (l.filter (fun li => ¬ (li.id == lid))).find? (fun li => li.id == lid) = none := by
  rw [List.find?_eq_none]
  intro x hx
  have hmem := (List.mem_filter.mp hx).2
  simp only [decide_not, Bool.not_eq_true', beq_eq_false_iff_ne, ne_eq] at hmem
  simpa using hmem

theorem isSome_model_validate (p : PendingModification) :
    (model_validate_pending p).isSome = true ↔ validate_action_requirements p = true := by
  unfold model_validate_pending
  split <;> simp_all

/-- C9: every successfully constructed PendingModification has non-empty
product/size/color names unless UNSUPPORTED, at least one new_* field for
MODIFY, and no new_* field for REMOVE_ITEM; the Pydantic build
(model_validate_pending) fails on any value violating these rules, so no
invalid PendingModification enters session state. -/
theorem c9_pending_modification_validation (p : PendingModification) :
    (model_validate_pending p).isSome = true ↔
      (p.action ≠ .unsupported →
        p.product_name ≠ "" ∧ p.size_name ≠ "" ∧ p.color_name ≠ "" ∧
        (p.action = .modify →
          p.new_quantity.isSome ∨ p.new_size.isSome ∨ p.new_color.isSome) ∧
        (p.action = .remove_item →
          p.new_quantity = none ∧ p.new_size = none ∧ p.new_color = none)) := by
  rw [isSome_model_validate]
  unfold validate_action_requirements
  rcases p with ⟨action, li, pn, sn, cn, cq, nq, ns, nc, r⟩
  dsimp only
  cases action with
  | unsupported => simp
  | modify =>
    by_cases h1 : pn = "" <;> by_cases h2 : sn = "" <;> by_cases h3 : cn = "" <;>
      simp [h1, h2, h3, Bool.or_eq_true, or_assoc]
  | remove_item =>
    by_cases h1 : pn = "" <;> by_cases h2 : sn = "" <;> by_cases h3 : cn = "" <;>
      simp [h1, h2, h3, Bool.and_eq_true, Option.isNone_iff_eq_none, and_assoc]

/-- C9 witness: the sample MODIFY modification passes validation-on-build and
therefore satisfies the structural invariants. -/
theorem c9_witness :
    exPendingIncrease.product_name ≠ "" ∧ exPendingIncrease.size_name ≠ "" ∧
      exPendingIncrease.color_name ≠ "" ∧
      (exPendingIncrease.action = .modify →
        exPendingIncrease.new_quantity.isSome ∨ exPendingIncrease.new_size.isSome ∨
          exPendingIncrease.new_color.isSome) ∧
      (exPendingIncrease.action = .remove_item →
        exPendingIncrease.new_quantity = none ∧ exPendingIncrease.new_size = none ∧
          exPendingIncrease.new_color = none) :=
  (c9_pending_modification_validation exPendingIncrease).mp (by decide) (by decide)

/-- C7: the policy change type of a pending modification is REMOVE_ITEM for
REMOVE_ITEM actions; for MODIFY with a new quantity it compares against the
looked-up current quantity (greater gives QUANTITY_INCREASE, smaller gives
QUANTITY_DECREASE, ties and unmatched line items give QUANTITY_DECREASE); and
SIZE_CHANGE/COLOR_CHANGE arise only when no new quantity is requested. -/
theorem c7_change_type (m : PendingModification) (items : List EnrichedLineItem) :
    (m.action = .remove_item → determine_change_type m items = .remove_item) ∧
    (m.action = .modify → ∀ nq, m.new_quantity = some nq →
      ((∀ oq, get_original_quantity m items = some oq →
        (oq < nq → determine_change_type m items = .quantity_increase) ∧
        (nq < oq → determine_change_type m items = .quantity_decrease) ∧
        (nq = oq → determine_change_type m items = .quantity_decrease)) ∧
       (get_original_quantity m items = none →
        determine_change_type m items = .quantity_decrease))) ∧
    ((determine_change_type m items = .size_change ∨
      determine_change_type m items = .color_change) → m.new_quantity = none) := by
  refine ⟨?_, ?_, ?_⟩
  · intro h
    unfold determine_change_type
    simp [h]
  · intro hact nq hnq
    constructor
    · intro oq hoq
      have hne : ¬ m.action = .remove_item := by simp [hact]
      refine ⟨?_, ?_, ?_⟩
      · intro hlt
        unfold determine_change_type
        simp only [hne, if_false, hnq, hoq]
        simp [hlt, show oq < nq from hlt]
      · intro hlt
        unfold determine_change_type
        simp only [hne, if_false, hnq, hoq]
        simp [show ¬ oq < nq from by omega, hlt]
      · intro heq
        unfold determine_change_type
        simp only [hne, if_false, hnq, hoq]
        simp [show ¬ oq < nq from by omega, show ¬ nq < oq from by omega]
    · intro hoq
      have hne : ¬ m.action = .remove_item := by simp [hact]
      unfold determine_change_type
      simp [hne, hnq, hoq]
  · intro h
    cases hnqv : m.new_quantity with
    | none => rfl
    | some nq =>
      exfalso
      unfold determine_change_type at h
      by_cases hact : m.action = .remove_item
      · rw [if_pos hact] at h
        rcases h with h | h <;> simp at h
      · rw [if_neg hact, hnqv] at h
        rcases hq2 : get_original_quantity m items with _ | oq <;> rw [hq2] at h
        · rcases h with h | h <;> simp at h
        · rcases h with h | h <;> by_cases hlt : oq < nq <;> simp [hlt] at h

/-- C7 witness: concrete instances of the branches at the sample order. -/
theorem c7_witness :
    determine_change_type exPendingIncrease
      [{ id := 20, order_id := 10, inventory_id := 1, quantity := 50, unit_price := 5,
         product_name := "Gildan T-Shirt", size := "Small", color := "Navy" }] =
      .quantity_increase ∧
    determine_change_type
      { action := .remove_item, product_name := "Gildan T-Shirt", size_name := "Small",
        color_name := "Navy" } [] = .remove_item := by
  constructor
  · exact ((((c7_change_type _ _).2.1 rfl 75 rfl).1 50 (by decide)).1 (by decide))
  · exact (c7_change_type _ _).1 rfl

/-- C8: a turn whose policy_confirmation_status is PENDING forces the intent
to POLICY_CONFIRMATION without invoking the classification oracle; in any
other turn the oracle is invoked and a classification output that neither
matches an Intent value nor validates against the intent schema maps to
UNCLEAR. -/
theorem c8_intent_routing (env : OracleEnv) (msg : String) (st : AgentState) :
    (st.policy_confirmation_status = some .pending →
      intent_classification env msg st = ({ st with intent := .policy_confirmation }, false)) ∧
    (st.policy_confirmation_status ≠ some .pending →
      intent_classification env msg st =
        ({ st with intent := (parse_intent env (env.intentRaw msg)).1 }, true)) ∧
    (∀ raw, intentOfValue (strip_code_fences raw) = none →
      env.validateIntentJson (strip_code_fences raw) = none →
      (parse_intent env raw).1 = .unclear) := by
  refine ⟨?_, ?_, ?_⟩
  · intro h
    unfold intent_classification
    simp [h]
  · intro h
    unfold intent_classification
    simp [h]
  · intro raw h1 h2
    unfold parse_intent
    simp [h1, h2]

/-- C8 witness: with a PENDING policy negotiation the oracle is bypassed, and
a garbage classification output maps to UNCLEAR. -/
theorem c8_witness :
    intent_classification (constOracleEnv "garbage") "hello"
        { exState with policy_confirmation_status := some .pending } =
      ({ exState with
          policy_confirmation_status := some .pending,
          intent := .policy_confirmation }, false) ∧
    (parse_intent (constOracleEnv "garbage") "garbage").1 = .unclear := by
  constructor
  · exact (c8_intent_routing (constOracleEnv "garbage") "hello"
      { exState with policy_confirmation_status := some .pending }).1 rfl
  · exact (c8_intent_routing (constOracleEnv "garbage") "hello"
      { exState with policy_confirmation_status := some .pending }).2.2 "garbage"
      (by decide) rfl

/-- C5 counterexample: the claim asserts that intent classification also
issues exactly one repair request on unparseable oracle output, but
_parse_intent contains no repair call: on an output that neither matches an
Intent value nor validates, it falls back to UNCLEAR having issued zero
repair requests, not one. -/
theorem c5_counterexample :
    intentOfValue (strip_code_fences "not json") = none ∧
    (constOracleEnv "").validateIntentJson (strip_code_fences "not json") = none ∧
    parse_intent (constOracleEnv "") "not json" = (.unclear, 0) := by
  refine ⟨by decide, rfl, by decide⟩

/-- C5 amended: modification extraction and confirmation interpretation issue
exactly one repair request when the first parse fails and fall back to the
safe default (null modification, UNCLEAR interpretation) when the repaired
output fails too; intent classification issues no repair request and falls
back to UNCLEAR directly. -/
theorem c5_repair_bounds (env : OracleEnv) (msg : String) (pm : PendingModification) :
    (normalize_and_validate_modification env (strip_code_fences (env.extractRaw msg)) = none →
      normalize_and_validate_modification env
        (repair_json_once env "PendingModification"
          (strip_code_fences (env.extractRaw msg))) = none →
      parse_modification env msg = (none, 1)) ∧
    (env.validateInterpretation (strip_code_fences (env.interpretRaw msg pm)) = none →
      env.validateInterpretation
        (repair_json_once env "ConfirmationInterpretationOutput"
          (strip_code_fences (env.interpretRaw msg pm))) = none →
      interpret_confirmation env msg pm = (unclearInterpretationFallback, 1)) ∧
    (∀ raw, intentOfValue (strip_code_fences raw) = none →
      env.validateIntentJson (strip_code_fences raw) = none →
      parse_intent env raw = (.unclear, 0)) := by
  refine ⟨?_, ?_, ?_⟩
  · intro h1 h2
    unfold parse_modification
    simp [h1, h2]
  · intro h1 h2
    unfold interpret_confirmation
    simp [h1, h2]
  · intro raw h1 h2
    unfold parse_intent
    simp [h1, h2]

/-- C5 witness: with an oracle whose outputs never validate, extraction falls
back to no modification after one repair, interpretation falls back to
UNCLEAR after one repair, and intent classification falls back to UNCLEAR
with zero repairs. -/
theorem c5_witness :
    parse_modification (constOracleEnv "") "hi" = (none, 1) ∧
    interpret_confirmation (constOracleEnv "") "hi" exPendingIncrease =
      (unclearInterpretationFallback, 1) ∧
    parse_intent (constOracleEnv "") "garbage" = (.unclear, 0) := by
  refine ⟨?_, ?_, ?_⟩
  · exact (c5_repair_bounds (constOracleEnv "") "hi" exPendingIncrease).1 rfl rfl
  · exact (c5_repair_bounds (constOracleEnv "") "hi" exPendingIncrease).2.1 rfl rfl
  · exact (c5_repair_bounds (constOracleEnv "") "hi" exPendingIncrease).2.2 "garbage"
      (by decide) rfl

/-- C3: a quantity-only decrease on an existing line item always succeeds
(never InsufficientInventoryError), moves old_qty - new_qty units from
reserved back to available on the item's inventory slot, and recomputes the
order total as the sum of unit_price times quantity over the order's current
line items. -/
theorem c3_quantity_decrease (db : Db) (oid lid : Nat) (order : OrderRec)
    (li : OrderLineItem) (inv : Inventory) (nq : Int)
    (h1 : findOrder db oid = some order)
    (h2 : findLineItem db lid = some li)
    (h3 : li.order_id = oid)
    (h4 : findInventory db li.inventory_id = some inv)
    (h5 : nq < li.quantity) :
    ∃ db1 o1, modify_line_item db oid lid (some nq) none none = .ok (db1, o1) ∧
      findInventory db1 li.inventory_id = some { inv with
        available_qty := inv.available_qty + (li.quantity - nq),
        reserved_qty := inv.reserved_qty - (li.quantity - nq) } ∧
      o1.total_amount = lineItemsTotal (orderLineItems db1 oid) := by
  have hdiff : ¬ (nq - li.quantity > 0) := by omega
  have hrun : modify_line_item db oid lid (some nq) none none =
      finalizeLineItemChange
        (updateInventory db { inv with
          available_qty := inv.available_qty - (nq - li.quantity),
          reserved_qty := inv.reserved_qty + (nq - li.quantity) })
        order oid { li with quantity := nq } := by
    unfold modify_line_item
    rw [h1, h2]
    simp only [h3, ne_eq, not_true_eq_false, if_false, ite_false]
    rw [h4]
    simp [hdiff]
  have hrec : ({ inv with
      available_qty := inv.available_qty - (nq - li.quantity),
      reserved_qty := inv.reserved_qty + (nq - li.quantity) } : Inventory) =
      { inv with
        available_qty := inv.available_qty + (li.quantity - nq),
        reserved_qty := inv.reserved_qty - (li.quantity - nq) } := by
    cases inv
    simp only [Inventory.mk.injEq, eq_self_iff_true, true_and]
    constructor <;> ring
  rw [hrec] at hrun
  rw [hrun]
  unfold finalizeLineItemChange
  refine ⟨_, _, rfl, ?_, ?_⟩
  · unfold findInventory updateOrder updateLineItem updateInventory
    dsimp only
    exact find?_map_replace Inventory.id li.inventory_id inv
      { inv with
        available_qty := inv.available_qty + (li.quantity - nq),
        reserved_qty := inv.reserved_qty - (li.quantity - nq) } rfl db.inventories h4
  · rfl

/-- C3 witness: lowering the first sample line item from 50 to 30 succeeds
and releases 20 units back to available. -/
theorem c3_witness :
    ∃ db1 o1, modify_line_item exDb 10 20 (some 30) none none = .ok (db1, o1) ∧
      findInventory db1 1 =
        some { id := 1, product_id := 1, color_id := 1, size_id := 1,
               available_qty := 25, reserved_qty := 30 } ∧
      o1.total_amount = lineItemsTotal (orderLineItems db1 10) :=
  c3_quantity_decrease exDb 10 20
    { id := 10, status := "CREATED", total_amount := 275 }
    { id := 20, order_id := 10, inventory_id := 1, quantity := 50, unit_price := 5 }
    { id := 1, product_id := 1, color_id := 1, size_id := 1,
      available_qty := 5, reserved_qty := 50 }
    30 rfl rfl rfl rfl (by decide)

/-- C6: removing a line item is refused with an OrderValidationError (and no
mutation, since the Python raise precedes every store write) whenever the
total quantity over the remaining items would drop below
MIN_ORDER_QUANTITY = 10; otherwise the item's full reservation returns to
available, the line item row is deleted, and the order total is recomputed as
the sum of unit_price times quantity over the remaining items. -/
theorem c6_remove_line_item (db : Db) (oid lid : Nat) (order : OrderRec)
    (li : OrderLineItem) (inv : Inventory)
    (h1 : findOrder db oid = some order)
    (h2 : findLineItem db lid = some li)
    (h3 : li.order_id = oid)
    (h4 : findInventory db li.inventory_id = some inv) :
    ((((orderLineItems db oid).filter (fun x => ¬ (x.id == lid))).map
        (fun x => x.quantity)).sum < MIN_ORDER_QUANTITY →
      remove_line_item db oid lid = .error (.orderValidation
        ("Cannot remove line item. Order must have at least " ++ toString MIN_ORDER_QUANTITY
          ++ " total items. Remaining after removal: "
          ++ toString (((orderLineItems db oid).filter (fun x => ¬ (x.id == lid))).map
              (fun x => x.quantity)).sum))) ∧
    (MIN_ORDER_QUANTITY ≤ (((orderLineItems db oid).filter (fun x => ¬ (x.id == lid))).map
        (fun x => x.quantity)).sum →
      ∃ db2 o2, remove_line_item db oid lid = .ok (db2, o2) ∧
        findInventory db2 li.inventory_id = some { inv with
          available_qty := inv.available_qty + li.quantity,
          reserved_qty := inv.reserved_qty - li.quantity } ∧
        findLineItem db2 lid = none ∧
        orderLineItems db2 oid = (orderLineItems db oid).filter (fun x => ¬ (x.id == lid)) ∧
        o2.total_amount = lineItemsTotal (orderLineItems db2 oid)) := by
  constructor
  · intro hlow
    unfold remove_line_item
    rw [h1, h2]
    simp only [h3, ne_eq, not_true_eq_false, if_false, ite_false]
    rw [if_pos hlow]
  · intro hhigh
    have hnotlow : ¬ ((((orderLineItems db oid).filter (fun x => ¬ (x.id == lid))).map
        (fun x => x.quantity)).sum < MIN_ORDER_QUANTITY) := by omega
    have hrun : remove_line_item db oid lid =
        .ok (({ (updateInventory db { inv with
                  available_qty := inv.available_qty + li.quantity,
                  reserved_qty := inv.reserved_qty - li.quantity }) with
                lineItems := ((updateInventory db { inv with
                  available_qty := inv.available_qty + li.quantity,
                  reserved_qty := inv.reserved_qty - li.quantity }).lineItems.filter
                    (fun x => ¬ (x.id == lid))) } |>
              fun dbDel => updateOrder dbDel { order with
                total_amount := lineItemsTotal
                  ((orderLineItems db oid).filter (fun x => ¬ (x.id == lid))) }),
            { order with
              total_amount := lineItemsTotal
                ((orderLineItems db oid).filter (fun x => ¬ (x.id == lid))) }) := by
      unfold remove_line_item
      rw [h1, h2]
      simp only [h3, ne_eq, not_true_eq_false, if_false, ite_false]
      rw [if_neg hnotlow, h4]
    rw [hrun]
    refine ⟨_, _, rfl, ?_, ?_, ?_, ?_⟩
    · unfold findInventory updateOrder updateInventory
      dsimp only
      exact find?_map_replace Inventory.id li.inventory_id inv
        { inv with
          available_qty := inv.available_qty + li.quantity,
          reserved_qty := inv.reserved_qty - li.quantity } rfl db.inventories h4
    · unfold findLineItem updateOrder updateInventory
      dsimp only
      exact find?_id_filtered_out _ _
    · unfold orderLineItems updateOrder updateInventory
      dsimp only
      exact List.filter_comm _ _ _
    · unfold orderLineItems updateOrder updateInventory
      dsimp only
      rw [List.filter_comm]

/-- C6 witness: removing the 50-unit line item would leave 5 < 10 and is
refused; removing the 5-unit line item leaves 50 and succeeds, releasing its
reservation and recomputing the total. -/
theorem c6_witness :
    remove_line_item exDb 10 20 = .error (.orderValidation
      ("Cannot remove line item. Order must have at least " ++ toString MIN_ORDER_QUANTITY
        ++ " total items. Remaining after removal: "
        ++ toString (((orderLineItems exDb 10).filter (fun x => ¬ (x.id == 20))).map
            (fun x => x.quantity)).sum)) ∧
    (∃ db2 o2, remove_line_item exDb 10 21 = .ok (db2, o2) ∧
      findInventory db2 2 =
        some { id := 2, product_id := 1, color_id := 1, size_id := 2,
               available_qty := 105, reserved_qty := 0 } ∧
      findLineItem db2 21 = none ∧
      orderLineItems db2 10 = (orderLineItems exDb 10).filter (fun x => ¬ (x.id == 21)) ∧
      o2.total_amount = lineItemsTotal (orderLineItems db2 10)) := by
  constructor
  · exact (c6_remove_line_item exDb 10 20
      { id := 10, status := "CREATED", total_amount := 275 }
      { id := 20, order_id := 10, inventory_id := 1, quantity := 50, unit_price := 5 }
      { id := 1, product_id := 1, color_id := 1, size_id := 1,
        available_qty := 5, reserved_qty := 50 } rfl rfl rfl rfl).1 (by decide)
  · exact (c6_remove_line_item exDb 10 21
      { id := 10, status := "CREATED", total_amount := 275 }
      { id := 21, order_id := 10, inventory_id := 2, quantity := 5, unit_price := 5 }
      { id := 2, product_id := 1, color_id := 1, size_id := 2,
        available_qty := 100, reserved_qty := 5 } rfl rfl rfl rfl).2 (by decide)

/-- Helper: the full run of modify_line_item on the size/color-change path
when the target slot exists, is distinct from the old slot, and has enough
availability. -/
theorem modify_sizecolor_run (db : Db) (oid lid : Nat) (order : OrderRec)
    (li : OrderLineItem) (oldInv newInv : Inventory) (product : Product)
    (nq : Option Int) (nsid ncid : Option Nat)
    (h1 : findOrder db oid = some order)
    (h2 : findLineItem db lid = some li)
    (h3 : li.order_id = oid)
    (h4 : findInventory db li.inventory_id = some oldInv)
    (h5 : (nsid.isSome || ncid.isSome) = true)
    (h6 : findInventoryByPCS db oldInv.product_id (ncid.getD oldInv.color_id)
      (nsid.getD oldInv.size_id) = some newInv)
    (h7 : findInventory db newInv.id = some newInv)
    (h8 : newInv.id ≠ oldInv.id)
    (h9 : ¬ (newInv.available_qty < pyOrInt nq li.quantity))
    (h10 : findProduct db newInv.product_id = some product) :
    modify_line_item db oid lid nq nsid ncid =
      finalizeLineItemChange
        (updateInventory
          (updateInventory db { oldInv with
            available_qty := oldInv.available_qty + li.quantity,
            reserved_qty := oldInv.reserved_qty - li.quantity })
          { newInv with
            available_qty := newInv.available_qty - pyOrInt nq li.quantity,
            reserved_qty := newInv.reserved_qty + pyOrInt nq li.quantity })
        order oid
        { li with
          inventory_id := newInv.id,
          quantity := pyOrInt nq li.quantity,
          unit_price := product.base_price } := by
  have hre : findInventory
      (updateInventory db { oldInv with
        available_qty := oldInv.available_qty + li.quantity,
        reserved_qty := oldInv.reserved_qty - li.quantity }) newInv.id = some newInv := by
    unfold findInventory updateInventory
    dsimp only
    rw [find?_map_replace_ne Inventory.id newInv.id
      { oldInv with
        available_qty := oldInv.available_qty + li.quantity,
        reserved_qty := oldInv.reserved_qty - li.quantity } (Ne.symm h8) db.inventories]
    exact h7
  unfold modify_line_item
  rw [h1, h2]
  simp only [h3, ne_eq, not_true_eq_false, if_false, ite_false]
  rw [h4]
  simp only [h5, if_true, ite_true]
  rw [h6]
  dsimp only
  rw [if_neg h9, hre]
  dsimp only
  rw [h10]

/-- C4: on a size and/or color change, if the target (product, color, size)
slot exists, is a different slot, and has enough availability, the operation
releases the full old reservation on the old slot, reserves the target
quantity on the new slot, and conserves the summed available + reserved
quantity across the two slots; if the target slot lacks availability it fails
with InsufficientInventoryError and if the slot does not exist the repository
raises NoResultFound, in both cases before any store write. -/
theorem c4_size_color_change (db : Db) (oid lid : Nat) (order : OrderRec)
    (li : OrderLineItem) (oldInv : Inventory) (nq : Option Int) (nsid ncid : Option Nat)
    (h1 : findOrder db oid = some order)
    (h2 : findLineItem db lid = some li)
    (h3 : li.order_id = oid)
    (h4 : findInventory db li.inventory_id = some oldInv)
    (h5 : (nsid.isSome || ncid.isSome) = true) :
    (∀ newInv product,
      findInventoryByPCS db oldInv.product_id (ncid.getD oldInv.color_id)
        (nsid.getD oldInv.size_id) = some newInv →
      findInventory db newInv.id = some newInv →
      newInv.id ≠ oldInv.id →
      ¬ (newInv.available_qty < pyOrInt nq li.quantity) →
      findProduct db newInv.product_id = some product →
      ∃ db2 o2 relOld resNew,
        modify_line_item db oid lid nq nsid ncid = .ok (db2, o2) ∧
        findInventory db2 oldInv.id = some relOld ∧
        findInventory db2 newInv.id = some resNew ∧
        relOld = { oldInv with
          available_qty := oldInv.available_qty + li.quantity,
          reserved_qty := oldInv.reserved_qty - li.quantity } ∧
        resNew = { newInv with
          available_qty := newInv.available_qty - pyOrInt nq li.quantity,
          reserved_qty := newInv.reserved_qty + pyOrInt nq li.quantity } ∧
        relOld.available_qty + relOld.reserved_qty
            + (resNew.available_qty + resNew.reserved_qty) =
          oldInv.available_qty + oldInv.reserved_qty
            + (newInv.available_qty + newInv.reserved_qty)) ∧
    (∀ newInv,
      findInventoryByPCS db oldInv.product_id (ncid.getD oldInv.color_id)
        (nsid.getD oldInv.size_id) = some newInv →
      newInv.available_qty < pyOrInt nq li.quantity →
      modify_line_item db oid lid nq nsid ncid = .error (.insufficientInventory
        ("Insufficient inventory for new size/color. Available: "
          ++ toString newInv.available_qty
          ++ ", Requested: " ++ toString (pyOrInt nq li.quantity)))) ∧
    (findInventoryByPCS db oldInv.product_id (ncid.getD oldInv.color_id)
        (nsid.getD oldInv.size_id) = none →
      modify_line_item db oid lid nq nsid ncid = .error .noResultFound) := by
  have hold : oldInv.id = li.inventory_id := by
    simpa using List.find?_some h4
  refine ⟨?_, ?_, ?_⟩
  · intro newInv product h6 h7 h8 h9 h10
    rw [modify_sizecolor_run db oid lid order li oldInv newInv product nq nsid ncid
      h1 h2 h3 h4 h5 h6 h7 h8 h9 h10]
    unfold finalizeLineItemChange
    refine ⟨_, _, _, _, rfl, ?_, ?_, rfl, rfl, by dsimp only; ring⟩
    · unfold findInventory updateOrder updateLineItem updateInventory
      dsimp only
      rw [find?_map_replace_ne Inventory.id oldInv.id
        { newInv with
          available_qty := newInv.available_qty - pyOrInt nq li.quantity,
          reserved_qty := newInv.reserved_qty + pyOrInt nq li.quantity } h8]
      have h4x : db.inventories.find? (fun i => i.id == oldInv.id) = some oldInv := by
        rw [hold]
        exact h4
      exact find?_map_replace Inventory.id oldInv.id oldInv
        { oldInv with
          available_qty := oldInv.available_qty + li.quantity,
          reserved_qty := oldInv.reserved_qty - li.quantity } rfl db.inventories h4x
    · unfold findInventory updateOrder updateLineItem updateInventory
      dsimp only
      refine find?_map_replace Inventory.id newInv.id newInv
        { newInv with
          available_qty := newInv.available_qty - pyOrInt nq li.quantity,
          reserved_qty := newInv.reserved_qty + pyOrInt nq li.quantity } rfl _ ?_
      rw [find?_map_replace_ne Inventory.id newInv.id
        { oldInv with
          available_qty := oldInv.available_qty + li.quantity,
          reserved_qty := oldInv.reserved_qty - li.quantity } (Ne.symm h8) db.inventories]
      exact h7
  · intro newInv h6 hlow
    unfold modify_line_item
    rw [h1, h2]
    simp only [h3, ne_eq, not_true_eq_false, if_false, ite_false]
    rw [h4]
    simp only [h5, if_true, ite_true]
    rw [h6]
    dsimp only
    rw [if_pos hlow]
  · intro h6
    unfold modify_line_item
    rw [h1, h2]
    simp only [h3, ne_eq, not_true_eq_false, if_false, ite_false]
    rw [h4]
    simp only [h5, if_true, ite_true]
    rw [h6]

/-- C4 witness: changing the 50-unit Small/Navy item to Medium conserves the
two-slot quantity sum (5+50 on the old slot plus 100+5 on the new slot = 160);
changing its color to Red fails on 3 available; asking for the nonexistent
Medium/Red slot raises NoResultFound. -/
theorem c4_witness :
    (∃ db2 o2 relOld resNew,
      modify_line_item exDb 10 20 none (some 2) none = .ok (db2, o2) ∧
      findInventory db2 1 = some relOld ∧
      findInventory db2 2 = some resNew ∧
      relOld.available_qty + relOld.reserved_qty
        + (resNew.available_qty + resNew.reserved_qty) = 160) ∧
    modify_line_item exDb 10 20 none none (some 2) = .error (.insufficientInventory
      ("Insufficient inventory for new size/color. Available: " ++ toString (3 : Int)
        ++ ", Requested: " ++ toString (50 : Int))) ∧
    modify_line_item exDb 10 20 none (some 2) (some 2) = .error .noResultFound := by
  refine ⟨?_, ?_, ?_⟩
  · obtain ⟨db2, o2, relOld, resNew, hrun, hfo, hfn, hro, hrn, hsum⟩ :=
      (c4_size_color_change exDb 10 20
        { id := 10, status := "CREATED", total_amount := 275 }
        { id := 20, order_id := 10, inventory_id := 1, quantity := 50, unit_price := 5 }
        { id := 1, product_id := 1, color_id := 1, size_id := 1,
          available_qty := 5, reserved_qty := 50 }
        none (some 2) none rfl rfl rfl rfl rfl).1
        { id := 2, product_id := 1, color_id := 1, size_id := 2,
          available_qty := 100, reserved_qty := 5 }
        { id := 1, name := "Gildan T-Shirt", base_price := 5 }
        rfl rfl (by decide) (by decide) rfl
    exact ⟨db2, o2, relOld, resNew, hrun, hfo, hfn, hsum⟩
  · exact (c4_size_color_change exDb 10 20
      { id := 10, status := "CREATED", total_amount := 275 }
      { id := 20, order_id := 10, inventory_id := 1, quantity := 50, unit_price := 5 }
      { id := 1, product_id := 1, color_id := 1, size_id := 1,
        available_qty := 5, reserved_qty := 50 }
      none none (some 2) rfl rfl rfl rfl rfl).2.1
      { id := 3, product_id := 1, color_id := 2, size_id := 1,
        available_qty := 3, reserved_qty := 0 }
      rfl (by decide)
  · exact (c4_size_color_change exDb 10 20
      { id := 10, status := "CREATED", total_amount := 275 }
      { id := 20, order_id := 10, inventory_id := 1, quantity := 50, unit_price := 5 }
      { id := 1, product_id := 1, color_id := 1, size_id := 1,
        available_qty := 5, reserved_qty := 50 }
      none (some 2) (some 2) rfl rfl rfl rfl rfl).2.2 rfl

/-- C10: in a size and/or color change, the quantity reserved on the new slot
and written to the line item is new_quantity only when it is a non-None,
non-zero value; the Python `new_quantity or old_quantity` keeps the old
quantity when new_quantity is None or 0, so a combined change with
new_quantity = 0 silently leaves the quantity unchanged. -/
theorem c10_sizecolor_quantity (db : Db) (oid lid : Nat) (order : OrderRec)
    (li : OrderLineItem) (oldInv newInv : Inventory) (product : Product)
    (nq : Option Int) (nsid ncid : Option Nat)
    (h1 : findOrder db oid = some order)
    (h2 : findLineItem db lid = some li)
    (h3 : li.order_id = oid)
    (h4 : findInventory db li.inventory_id = some oldInv)
    (h5 : (nsid.isSome || ncid.isSome) = true)
    (h6 : findInventoryByPCS db oldInv.product_id (ncid.getD oldInv.color_id)
      (nsid.getD oldInv.size_id) = some newInv)
    (h7 : findInventory db newInv.id = some newInv)
    (h8 : newInv.id ≠ oldInv.id)
    (h9 : ¬ (newInv.available_qty < pyOrInt nq li.quantity))
    (h10 : findProduct db newInv.product_id = some product) :
    ∃ db2 o2, modify_line_item db oid lid nq nsid ncid = .ok (db2, o2) ∧
      findLineItem db2 lid = some { li with
        inventory_id := newInv.id,
        quantity := pyOrInt nq li.quantity,
        unit_price := product.base_price } ∧
      ((nq = some 0 ∨ nq = none) → pyOrInt nq li.quantity = li.quantity) ∧
      (∀ q, nq = some q → q ≠ 0 → pyOrInt nq li.quantity = q) := by
  rw [modify_sizecolor_run db oid lid order li oldInv newInv product nq nsid ncid
    h1 h2 h3 h4 h5 h6 h7 h8 h9 h10]
  unfold finalizeLineItemChange
  refine ⟨_, _, rfl, ?_, ?_, ?_⟩
  · unfold findLineItem updateOrder updateLineItem updateInventory
    dsimp only
    exact find?_map_replace OrderLineItem.id lid li
      { li with
        inventory_id := newInv.id,
        quantity := pyOrInt nq li.quantity,
        unit_price := product.base_price } rfl db.lineItems h2
  · rintro (h | h) <;> subst h <;> simp [pyOrInt]
  · intro q hq hqne
    subst hq
    simp [pyOrInt, hqne]

/-- C10 witness: a size change to Medium with new_quantity = 0 keeps the line
item at its old quantity 50. -/
theorem c10_witness :
    ∃ db2 o2, modify_line_item exDb 10 20 (some 0) (some 2) none = .ok (db2, o2) ∧
      findLineItem db2 20 =
        some { id := 20, order_id := 10, inventory_id := 2, quantity := 50,
               unit_price := 5 } := by
  obtain ⟨db2, o2, hrun, hfind, -⟩ :=
    c10_sizecolor_quantity exDb 10 20
      { id := 10, status := "CREATED", total_amount := 275 }
      { id := 20, order_id := 10, inventory_id := 1, quantity := 50, unit_price := 5 }
      { id := 1, product_id := 1, color_id := 1, size_id := 1,
        available_qty := 5, reserved_qty := 50 }
      { id := 2, product_id := 1, color_id := 1, size_id := 2,
        available_qty := 100, reserved_qty := 5 }
      { id := 1, name := "Gildan T-Shirt", base_price := 5 }
      (some 0) (some 2) none rfl rfl rfl rfl rfl rfl rfl (by decide) (by decide) rfl
  exact ⟨db2, o2, hrun, hfind⟩

/-- C1 counterexample: the claim says a domain-error execution does NOT set
pending_modification_status to EXECUTED, but _execute_modification_node sets
EXECUTED unconditionally: executing the confirmed 50-to-75 increase against 5
available units fails with insufficient inventory, returns the apologetic
human-support referral, clears the PendingModification, and still marks the
status EXECUTED. -/
theorem c1_counterexample :
    (execute_modification_node exDb exState).map
        (fun r => (r.2.pending_modification_status, r.2.pending_modification, r.2.response)) =
      .ok (some PendingModificationStatus.executed, none,
        failureReferral ("Insufficient inventory. Available: " ++ toString (5 : Int)
          ++ ", Additional needed: " ++ toString (25 : Int))) := by
  rfl

/-- C1 amended: when execution of a confirmed pending modification fails with
a domain error, the turn responds with the error explanation (a human-support
referral on the tool failure-result paths, i.e. insufficient inventory,
minimum-quantity and not-belonging failures; the caught line-item-not-found
and invalid size/color exceptions produce their explanatory messages without
the referral), clears the PendingModification, and sets
pending_modification_status to EXECUTED (the node marks EXECUTED regardless
of the outcome). -/
theorem c1_domain_error_execution (db : Db) (st : AgentState) (pm : PendingModification)
    (hp : st.pending_modification = some pm)
    (hv : model_validate_pending pm = some pm) :
    (∀ db2 emsg, pm.action = .modify →
      tools_modify_line_item db st.order_id none pm.product_name pm.size_name pm.color_name
        pm.new_quantity pm.new_size pm.new_color = .ok (db2, false, emsg) →
      execute_modification_node db st = .ok (db2, { st with
        response := failureReferral emsg,
        pending_modification := none,
        pending_modification_status := some .executed })) ∧
    (∀ db2 emsg, pm.action = .remove_item →
      tools_remove_line_item db st.order_id none pm.product_name pm.size_name pm.color_name
        = .ok (db2, false, emsg) →
      execute_modification_node db st = .ok (db2, { st with
        response := failureReferral emsg,
        pending_modification := none,
        pending_modification_status := some .executed })) ∧
    (∀ emsg, pm.action = .modify →
      tools_modify_line_item db st.order_id none pm.product_name pm.size_name pm.color_name
        pm.new_quantity pm.new_size pm.new_color = .error (.lineItemNotFound emsg) →
      execute_modification_node db st = .ok (db, { st with
        response := lineItemNotFoundResponse,
        pending_modification := none,
        pending_modification_status := some .executed })) ∧
    (∀ emsg, pm.action = .modify →
      tools_modify_line_item db st.order_id none pm.product_name pm.size_name pm.color_name
        pm.new_quantity pm.new_size pm.new_color = .error (.invalidSize emsg) →
      execute_modification_node db st = .ok (db, { st with
        response := emsg,
        pending_modification := none,
        pending_modification_status := some .executed })) ∧
    (∀ emsg, pm.action = .modify →
      tools_modify_line_item db st.order_id none pm.product_name pm.size_name pm.color_name
        pm.new_quantity pm.new_size pm.new_color = .error (.invalidColor emsg) →
      execute_modification_node db st = .ok (db, { st with
        response := emsg,
        pending_modification := none,
        pending_modification_status := some .executed })) := by
  have hnode : ∀ res : Db × String,
      execute_modification db st.order_id pm = .ok res →
      execute_modification_node db st = .ok (res.1, { st with
        response := res.2,
        pending_modification := none,
        pending_modification_status := some .executed }) := by
    intro res hres
    unfold execute_modification_node
    rw [hp]
    dsimp only
    rw [hv]
    dsimp only
    rw [hres]
  refine ⟨?_, ?_, ?_, ?_, ?_⟩
  · intro db2 emsg hact htool
    refine hnode (db2, failureReferral emsg) ?_
    unfold execute_modification
    rw [hact]
    dsimp only
    rw [htool]
  · intro db2 emsg hact htool
    refine hnode (db2, failureReferral emsg) ?_
    unfold execute_modification
    rw [hact]
    dsimp only
    rw [htool]
  · intro emsg hact htool
    refine hnode (db, lineItemNotFoundResponse) ?_
    unfold execute_modification
    rw [hact]
    dsimp only
    rw [htool]
  · intro emsg hact htool
    refine hnode (db, emsg) ?_
    unfold execute_modification
    rw [hact]
    dsimp only
    rw [htool]
  · intro emsg hact htool
    refine hnode (db, emsg) ?_
    unfold execute_modification
    rw [hact]
    dsimp only
    rw [htool]

/-- C1 witness: the insufficient-inventory failure at the sample order ends
the turn with the referral message, a cleared modification, and status
EXECUTED. -/
theorem c1_witness :
    execute_modification_node exDb exState = .ok (exDb, { exState with
      response := failureReferral ("Insufficient inventory. Available: " ++ toString (5 : Int)
        ++ ", Additional needed: " ++ toString (25 : Int)),
      pending_modification := none,
      pending_modification_status := some .executed }) :=
  (c1_domain_error_execution exDb exState exPendingIncrease rfl rfl).1 exDb
    ("Insufficient inventory. Available: " ++ toString (5 : Int)
      ++ ", Additional needed: " ++ toString (25 : Int)) rfl rfl

/-- C2: once a session's pending_modification_status is EXECUTED, a further
CONFIRMATION turn answers with the canned already-applied response, leaves
the store untouched, and leaves every checkpointed session field unchanged
(idempotent re-confirmation), enforced purely by the status check before any
action. -/
theorem c2_already_applied_idempotent (env : OracleEnv) (db : Db) (msg : String)
    (oid : Nat) (s : SessionState)
    (hex : s.pending_modification_status = some .executed)
    (hpol : s.policy_confirmation_status ≠ some .pending)
    (hint : (parse_intent env (env.intentRaw msg)).1 = .confirmation) :
    agent_step env db msg oid s =
      .ok (db, { initial_state oid s with
        intent := .confirmation,
        response := alreadyAppliedMsg }) ∧
    session_of { initial_state oid s with
      intent := Intent.confirmation,
      response := alreadyAppliedMsg } = s := by
  constructor
  · unfold agent_step
    dsimp only
    have hclass : (intent_classification env msg (initial_state oid s)).1 =
        { initial_state oid s with intent := (parse_intent env (env.intentRaw msg)).1 } := by
      unfold intent_classification initial_state
      dsimp only
      rw [if_neg hpol]
    rw [hclass]
    dsimp only
    rw [hint]
    dsimp only
    have hconf : confirm_understanding env msg
        { initial_state oid s with intent := Intent.confirmation } =
        .ok { initial_state oid s with
          intent := Intent.confirmation,
          response := alreadyAppliedMsg } := by
      unfold confirm_understanding initial_state
      dsimp only
      rw [hex]
      rw [if_pos rfl]
    rw [hconf]
    dsimp only
    unfold route_after_confirmation initial_state
    dsimp only
    rw [if_neg (by decide : ¬ (false = true))]
    rw [if_neg (by decide : ¬ ("end" = "policy_evaluation"))]
  · rfl

/-- C2 witness: a concrete EXECUTED session answered with the canned message
and an unchanged store and session. -/
theorem c2_witness :
    agent_step (constOracleEnv "CONFIRMATION") exDb "yes" 10
        { pending_modification_status := some .executed } =
      .ok (exDb, { initial_state 10 { pending_modification_status := some .executed } with
        intent := .confirmation,
        response := alreadyAppliedMsg }) ∧
    session_of { initial_state 10 { pending_modification_status := some .executed } with
      intent := Intent.confirmation,
      response := alreadyAppliedMsg } =
      { pending_modification_status := some .executed } :=
  c2_already_applied_idempotent (constOracleEnv "CONFIRMATION") exDb "yes" 10
    { pending_modification_status := some .executed } rfl (by decide) (by decide)

end BrightThread
